import Mathlib

/-!
Verification of the JWT authentication core of the Todo backend
(src/backend/src: utils/jwt_utils.py, services/auth_service.py, api/deps.py,
models/models.py), as a shallow embedding.

Modelling conventions, each justified by the source:
  - Timestamps are natural numbers counting seconds (JWT exp and iat claims are
    integer Unix timestamps at second granularity; python-jose converts the
    datetime values produced by datetime.utcnow to integer seconds when
    encoding, and its expiry check compares integer seconds).
  - uuid4 draws are modelled by a fresh-value counter threaded through the
    state (field nonce of St); each draw returns the counter value and bumps
    it.  This models the uniqueness of uuid4 values.
  - A JWT string is modelled symbolically: TokenStr.jwt p is the string
    obtained by signing payload p with the server secret (jwt.encode is
    deterministic and injective on payloads for a fixed secret, so string
    equality of issued tokens coincides with payload equality);
    TokenStr.badSig p is a well-formed token whose signature does not verify
    under the server secret; TokenStr.malformed s is any other string.
  - A bcrypt hash string is modelled symbolically: HashStr.bcrypt salt pw is
    the string "$2b$12$<salt><digest>" where the digest is the bcrypt digest
    of pw under salt (injective in pw for a fixed salt); HashStr.malformed s
    is a string no configured passlib scheme recognises.  passlib
    CryptContext.verify recomputes the digest from the embedded salt and
    compares, and raises UnknownHashError (a ValueError) on a string it
    cannot identify.
  - Database rows live in Lean lists; SQLAlchemy scalar_one_or_none is
    modelled on the filtered list (none / the row / MultipleResultsFound).
  - Python exceptions are Except errors.  The get_db dependency
    (models/database.py) commits on success and rolls back on any exception,
    so an operation that raises before its commit leaves the database
    unchanged; stAfter packages that convention.  logout_user commits inside
    its try block and swallows every exception, so it is total.
-/

/-- The value of the type claim of a JWT issued by jwt_utils. -/
inductive TokenType
  | access
  | refresh
deriving DecidableEq

/-- Claim set carried by a token issued (or checked) by jwt_utils.  sub is the
user uuid (uuids are modelled as Nat), token_id the uuid4 jti stored in
refresh tokens, exp and iat integer Unix seconds. -/
structure Payload where
  sub : Nat
  type : TokenType
  email : Option String
  role : Option String
  token_id : Option Nat
  exp : Nat
  iat : Nat
deriving DecidableEq

/-- Symbolic model of a JWT string (see the header comment). -/
inductive TokenStr
  | jwt (p : Payload)
  | badSig (p : Payload)
  | malformed (s : String)
deriving DecidableEq

/-- Symbolic model of a stored password-hash string (see the header comment). -/
inductive HashStr
  | bcrypt (salt : String) (password : String)
  | malformed (s : String)
deriving DecidableEq

/-- An HTTPException raised by the service layer: status code plus the
code/message fields of its detail dict. -/
structure HTTPError where
  status_code : Nat
  code : String
  message : String
deriving DecidableEq

/-- Python exceptions that flow through the auth code: fastapi HTTPException,
jose JWTError, sqlalchemy MultipleResultsFound, passlib UnknownHashError. -/
inductive AuthErr
  | http (e : HTTPError)
  | jwtError (msg : String)
  | multipleResults
  | passlibError (msg : String)
deriving DecidableEq

/-- Settings default access_token_expire_minutes (config.py). -/
def ACCESS_TOKEN_EXPIRE_MINUTES : Nat := 15

/-- Settings default refresh_token_expire_days (config.py). -/
def REFRESH_TOKEN_EXPIRE_DAYS : Nat := 7

/-- Access-token lifetime in seconds. -/
def accessTokenTTL : Nat := ACCESS_TOKEN_EXPIRE_MINUTES * 60

/-- Refresh-token lifetime in seconds. -/
def refreshTokenTTL : Nat := REFRESH_TOKEN_EXPIRE_DAYS * 86400

/-- jwt_utils.create_access_token: claims sub, email, role plus exp, iat and
type access, signed with the server secret. -/
def create_access_token (now : Nat) (sub : Nat) (email role : String) : TokenStr :=
  .jwt { sub := sub, type := .access, email := some email, role := some role,
         token_id := none, exp := now + accessTokenTTL, iat := now }

/-- jwt_utils.create_refresh_token: claims sub, token_id plus exp, iat and
type refresh, signed with the server secret. -/
def create_refresh_token (now : Nat) (sub : Nat) (token_id : Nat) : TokenStr :=
  .jwt { sub := sub, type := .refresh, email := none, role := none,
         token_id := some token_id, exp := now + refreshTokenTTL, iat := now }

/-- jwt_utils.decode_token: jose jwt.decode checks the signature and the exp
claim (expired when exp is strictly below the current integer second) and
decode_token rewraps any JWTError with an Invalid token message. -/
def decode_token (now : Nat) (t : TokenStr) : Except AuthErr Payload :=
  match t with
  | .jwt p =>
      if p.exp < now then .error (.jwtError "Invalid token: Signature has expired.")
      else .ok p
  | .badSig _ => .error (.jwtError "Invalid token: Signature verification failed.")
  | .malformed _ => .error (.jwtError "Invalid token: Not enough segments")

/-- jwt_utils.verify_access_token: decode, then require the type claim to be
access. -/
def verify_access_token (now : Nat) (t : TokenStr) : Except AuthErr Payload :=
  match decode_token now t with
  | .error e => .error e
  | .ok p =>
      if p.type ≠ TokenType.access then
        .error (.jwtError "Invalid token type: expected access")
      else .ok p

/-- jwt_utils.verify_refresh_token: decode, then require the type claim to be
refresh. -/
def verify_refresh_token (now : Nat) (t : TokenStr) : Except AuthErr Payload :=
  match decode_token now t with
  | .error e => .error e
  | .ok p =>
      if p.type ≠ TokenType.refresh then
        .error (.jwtError "Invalid token type: expected refresh")
      else .ok p

/-- jwt_utils.get_password_hash: bcrypt with an embedded fresh salt. -/
def get_password_hash (salt password : String) : HashStr :=
  .bcrypt salt password

/-- passlib CryptContext.verify on the configured bcrypt scheme: recompute the
digest with the embedded salt and compare; raise UnknownHashError on a string
no scheme recognises. -/
def pwd_context_verify (plain : String) (hashed : HashStr) : Except AuthErr Bool :=
  match hashed with
  | .bcrypt _ password => .ok (password == plain)
  | .malformed _ => .error (.passlibError "hash could not be identified")

/-- jwt_utils.verify_password: delegates to pwd_context.verify. -/
def verify_password (plain : String) (hashed : HashStr) : Except AuthErr Bool :=
  pwd_context_verify plain hashed

/-- Row of the users table (models/models.py, class User); columns irrelevant
to the claims (timestamps) are omitted. -/
structure UserRec where
  id : Nat
  email : String
  password_hash : HashStr
  role : String
  is_verified : Bool
deriving DecidableEq

/-- Row of the sessions table (models/models.py, class Session). -/
structure SessionRec where
  id : Nat
  user_id : Nat
  refresh_token : TokenStr
  expires_at : Nat
  revoked_at : Option Nat
deriving DecidableEq

/-- The database: users and sessions tables, rows in insertion order. -/
structure DB where
  users : List UserRec
  sessions : List SessionRec
deriving DecidableEq

/-- Server state: the database plus the uuid4 fresh-value counter. -/
structure St where
  db : DB
  nonce : Nat
deriving DecidableEq

/-- Public user fields returned by login and refresh (never the password
hash). -/
structure PublicUser where
  id : Nat
  email : String
  role : String
  is_verified : Bool
deriving DecidableEq

/-- The dict returned by login_user and refresh_tokens. -/
structure TokenResponse where
  access_token : TokenStr
  refresh_token : TokenStr
  token_type : String
  expires_in : Nat
  user : PublicUser
deriving DecidableEq

/-- Public projection of a user row, as built by login_user and
refresh_tokens. -/
def publicOf (u : UserRec) : PublicUser :=
  { id := u.id, email := u.email, role := u.role, is_verified := u.is_verified }

/-- sqlalchemy Result.scalar_one_or_none on the rows a query returned: none
for zero rows, the row for one, MultipleResultsFound otherwise. -/
def scalar_one_or_none {α : Type} (l : List α) : Except AuthErr (Option α) :=
  match l with
  | [] => .ok none
  | [x] => .ok (some x)
  | _ => .error .multipleResults

/-- The 401 INVALID_CREDENTIALS error of authenticate_user. -/
def invalidCredentials : AuthErr :=
  .http { status_code := 401, code := "INVALID_CREDENTIALS",
          message := "Invalid email or password" }

/-- The 400 EMAIL_ALREADY_EXISTS error of register_user. -/
def emailAlreadyExists : AuthErr :=
  .http { status_code := 400, code := "EMAIL_ALREADY_EXISTS",
          message := "An account with this email already exists" }

/-- The 401 INVALID_REFRESH_TOKEN error of refresh_tokens. -/
def invalidRefreshToken : AuthErr :=
  .http { status_code := 401, code := "INVALID_REFRESH_TOKEN",
          message := "Refresh token not found or revoked" }

/-- The 401 REFRESH_TOKEN_EXPIRED error of refresh_tokens. -/
def refreshTokenExpired : AuthErr :=
  .http { status_code := 401, code := "REFRESH_TOKEN_EXPIRED",
          message := "Refresh token has expired" }

/-- The 401 USER_NOT_FOUND error of refresh_tokens and get_current_user. -/
def userNotFound : AuthErr :=
  .http { status_code := 401, code := "USER_NOT_FOUND",
          message := "User not found" }

/-- auth_service.register_user: reject a duplicate email, otherwise hash the
password and append an unverified user with role user.  The salt argument
stands for the fresh bcrypt salt passlib draws. -/
def register_user (st : St) (email password salt : String) : Except AuthErr (UserRec × St) :=
  match scalar_one_or_none (st.db.users.filter (fun u => u.email == email)) with
  | .error e => .error e
  | .ok (some _) => .error emailAlreadyExists
  | .ok none =>
      let newUser : UserRec :=
        { id := st.nonce, email := email,
          password_hash := get_password_hash salt password,
          role := "user", is_verified := false }
      .ok (newUser,
           { db := { users := st.db.users ++ [newUser], sessions := st.db.sessions },
             nonce := st.nonce + 1 })

/-- auth_service.authenticate_user: look the user up by email; if absent, or
present with a non-matching password, raise the single INVALID_CREDENTIALS
error.  A raising verify (malformed stored hash) propagates, as in the
source. -/
def authenticate_user (db : DB) (email password : String) : Except AuthErr UserRec :=
  match scalar_one_or_none (db.users.filter (fun u => u.email == email)) with
  | .error e => .error e
  | .ok none => .error invalidCredentials
  | .ok (some u) =>
      match verify_password password u.password_hash with
      | .error e => .error e
      | .ok ok => if ok then .ok u else .error invalidCredentials

/-- auth_service.login_user: authenticate, issue an access token and a refresh
token carrying a fresh uuid4 token_id, persist a new Session row for the
refresh token, return the token response. -/
def login_user (st : St) (email password : String) (now : Nat) : Except AuthErr (TokenResponse × St) :=
  match authenticate_user st.db email password with
  | .error e => .error e
  | .ok user =>
      let access := create_access_token now user.id user.email user.role
      let token_id := st.nonce
      let refresh := create_refresh_token now user.id token_id
      let expires_at := now + refreshTokenTTL
      let newSession : SessionRec :=
        { id := st.nonce + 1, user_id := user.id, refresh_token := refresh,
          expires_at := expires_at, revoked_at := none }
      .ok ({ access_token := access, refresh_token := refresh,
             token_type := "bearer", expires_in := accessTokenTTL,
             user := publicOf user },
           { db := { users := st.db.users,
                     sessions := st.db.sessions ++ [newSession] },
             nonce := st.nonce + 2 })

/-- The where clause of the session lookup in refresh_tokens: token value,
user id, and revoked_at IS NULL — no expiry filter. -/
def sessionMatches (tok : TokenStr) (uid : Nat) (s : SessionRec) : Bool :=
  s.refresh_token == tok && s.user_id == uid && s.revoked_at == none

/-- auth_service.refresh_tokens: verify the refresh token, look up the active
session (revoked_at null only), report INVALID_REFRESH_TOKEN when absent,
REFRESH_TOKEN_EXPIRED when the session expiry has passed, then revoke the
presented session, load the user, and issue and persist a fresh pair.  On the
error paths the in-flight mutations are never committed (get_db rolls back),
so the error carries no state change. -/
def refresh_tokens (st : St) (tok : TokenStr) (now : Nat) : Except AuthErr (TokenResponse × St) :=
  match verify_refresh_token now tok with
  | .error e => .error e
  | .ok payload =>
      let uid := payload.sub
      match scalar_one_or_none (st.db.sessions.filter (sessionMatches tok uid)) with
      | .error e => .error e
      | .ok none => .error invalidRefreshToken
      | .ok (some s) =>
          if s.expires_at < now then .error refreshTokenExpired
          else
            let sessions1 := st.db.sessions.map
              (fun x => if sessionMatches tok uid x then { x with revoked_at := some now } else x)
            match scalar_one_or_none (st.db.users.filter (fun u => u.id == uid)) with
            | .error e => .error e
            | .ok none => .error userNotFound
            | .ok (some user) =>
                let access := create_access_token now user.id user.email user.role
                let new_token_id := st.nonce
                let newRefresh := create_refresh_token now user.id new_token_id
                let newSession : SessionRec :=
                  { id := st.nonce + 1, user_id := user.id, refresh_token := newRefresh,
                    expires_at := now + refreshTokenTTL, revoked_at := none }
                .ok ({ access_token := access, refresh_token := newRefresh,
                       token_type := "bearer", expires_in := accessTokenTTL,
                       user := publicOf user },
                     { db := { users := st.db.users,
                               sessions := sessions1 ++ [newSession] },
                       nonce := st.nonce + 2 })

/-- Body of the try block of auth_service.logout_user: verify the refresh
token, then set revoked_at on every active session of the embedded user and
commit. -/
def logoutBody (st : St) (tok : TokenStr) (now : Nat) : Except AuthErr St :=
  match verify_refresh_token now tok with
  | .error e => .error e
  | .ok payload =>
      let uid := payload.sub
      let sessions1 := st.db.sessions.map
        (fun s => if s.user_id == uid && s.revoked_at == none
                  then { s with revoked_at := some now } else s)
      .ok { st with db := { users := st.db.users, sessions := sessions1 } }

/-- auth_service.logout_user: the whole body sits in a try whose except
swallows every exception, so the call always completes; a failing body leaves
the database untouched (nothing was committed). -/
def logout_user (st : St) (tok : TokenStr) (now : Nat) : St :=
  match logoutBody st tok now with
  | .ok st1 => st1
  | .error _ => st

/-- The POST /api/auth/logout route (api/routes/auth.py): call logout_user and
answer with the fixed success message. -/
def logout_route (st : St) (tok : TokenStr) (now : Nat) : String × St :=
  ("Successfully logged out", logout_user st tok now)

/-- auth_service.get_current_user: verify the access token and load the user
by the embedded subject id; read-only, the state is returned unchanged. -/
def service_get_current_user (st : St) (tok : TokenStr) (now : Nat) : Except AuthErr (UserRec × St) :=
  match verify_access_token now tok with
  | .error e => .error e
  | .ok payload =>
      match scalar_one_or_none (st.db.users.filter (fun u => u.id == payload.sub)) with
      | .error e => .error e
      | .ok none => .error userNotFound
      | .ok (some u) => .ok (u, st)

/-- What str applied to the exception yields, per exception kind, for the
generic handler in api/deps.py. -/
def errToStr (e : AuthErr) : String :=
  match e with
  | .jwtError m => m
  | .passlibError m => m
  | .multipleResults => "Multiple rows were found when one or none was required"
  | .http m => m.message

/-- The error envelope the client sees. -/
structure ClientError where
  status_code : Nat
  code : String
  message : String
deriving DecidableEq

/-- api/deps.get_current_user: 401 MISSING_AUTH_HEADER without a bearer
credential; otherwise call the service, re-raise HTTPException unchanged, and
wrap any other exception as 401 AUTH_FAILED with the message
"Authentication failed: " followed by str of the exception. -/
def deps_get_current_user (st : St) (auth : Option TokenStr) (now : Nat) : Except ClientError UserRec :=
  match auth with
  | none =>
      .error { status_code := 401, code := "MISSING_AUTH_HEADER",
               message := "Missing authorization header. Format: Authorization: Bearer <token>" }
  | some tok =>
      match service_get_current_user st tok now with
      | .ok (u, _) => .ok u
      | .error (.http e) =>
          .error { status_code := e.status_code, code := e.code, message := e.message }
      | .error e =>
          .error { status_code := 401, code := "AUTH_FAILED",
                   message := "Authentication failed: " ++ errToStr e }

/-- The state after an operation ran under the get_db dependency
(models/database.py): the new state on success (committed), the old state on
any exception (rolled back). -/
def stAfter {α : Type} (st : St) (r : Except AuthErr (α × St)) : St :=
  match r with
  | .ok (_, st1) => st1
  | .error _ => st

/-- True when an Except computation succeeded. -/
def exOk {ε α : Type} (r : Except ε α) : Bool :=
  match r with
  | .ok _ => true
  | .error _ => false

/-- The token_id claim of a token, when it is a validly signed JWT. -/
def tokenIdOf (t : TokenStr) : Option Nat :=
  match t with
  | .jwt p => p.token_id
  | _ => none

/-- A token is fresh for counter c when its token_id (if any) was drawn from
an earlier uuid4 draw. -/
def tokFresh (c : Nat) (t : TokenStr) : Bool :=
  match tokenIdOf t with
  | some n => n < c
  | none => true

/-- State well-formedness used for rotation claims: every stored refresh
token was built with uuid4 draws earlier than the current counter.  It holds
for the empty state and is maintained by every operation, since tokens enter
the sessions table only through login_user and refresh_tokens, both of which
embed a token_id drawn from the counter they then advance. -/
def stFresh (st : St) : Bool :=
  st.db.sessions.all (fun s => tokFresh st.nonce s.refresh_token)

/-- How a stored session row may legally evolve across one operation: all
columns frozen, except that revoked_at may go from null to a timestamp. -/
def SessionEvolves (s s1 : SessionRec) : Prop :=
  s1.id = s.id ∧ s1.user_id = s.user_id ∧ s1.refresh_token = s.refresh_token ∧
  s1.expires_at = s.expires_at ∧
  (s1.revoked_at = s.revoked_at ∨ (s.revoked_at = none ∧ ∃ t, s1.revoked_at = some t))

/-- The sessions table after an operation: every pre-existing row is still
present (same position, evolved per SessionEvolves) and any further rows are
appended after them — no row is ever deleted. -/
def SessionsPreserved (old new : List SessionRec) : Prop :=
  ∃ evolved tail, new = evolved ++ tail ∧ List.Forall₂ SessionEvolves old evolved

/-- Row-wise effect of a verified logout for user uid at time now: active
rows of uid get revoked_at set to now; every other row is untouched. -/
def LogoutEvolves (uid now : Nat) (s s1 : SessionRec) : Prop :=
  (s.user_id = uid ∧ s.revoked_at = none → s1 = { s with revoked_at := some now }) ∧
  (¬ (s.user_id = uid ∧ s.revoked_at = none) → s1 = s)

/-- Fixed demo user for concrete evaluations: uuid 0, a stored bcrypt hash of
password123 under salt s1. -/
def demoUser : UserRec :=
  { id := 0, email := "a@x.com",
    password_hash := get_password_hash "s1" "password123",
    role := "user", is_verified := false }

/-- Demo state right after registration of demoUser: one user, no session,
next uuid4 draw is 1. -/
def demoSt : St :=
  { db := { users := [demoUser], sessions := [] }, nonce := 1 }

/-- The refresh token login_user issues from demoSt at time 0. -/
def demoRefresh0 : TokenStr := create_refresh_token 0 0 1

/-- The access token login_user issues from demoSt at time 0. -/
def demoAccess0 : TokenStr := create_access_token 0 0 "a@x.com" "user"

/-- The session row login_user persists from demoSt at time 0. -/
def demoSession0 : SessionRec :=
  { id := 2, user_id := 0, refresh_token := demoRefresh0,
    expires_at := refreshTokenTTL, revoked_at := none }

/-- The token response login_user returns from demoSt at time 0. -/
def demoResp0 : TokenResponse :=
  { access_token := demoAccess0, refresh_token := demoRefresh0,
    token_type := "bearer", expires_in := accessTokenTTL, user := publicOf demoUser }

/-- The state after that login. -/
def demoSt1 : St :=
  { db := { users := [demoUser], sessions := [demoSession0] }, nonce := 3 }

/-- The error the client received, from a finished boundary call (dummy envelope
when the call succeeded). -/
def clientErrOf (r : Except ClientError UserRec) : ClientError :=
  match r with
  | .error c => c
  | .ok _ => { status_code := 0, code := "", message := "" }

/-- Fixture: an access token whose exp claim (5) has passed at time 10. -/
def tok9a : TokenStr :=
  .jwt { sub := 0, type := .access, email := some "a@x.com", role := some "user",
         token_id := none, exp := 5, iat := 0 }

/-- Fixture: an unexpired token of type refresh, the wrong kind for an access
check. -/
def tok9b : TokenStr :=
  .jwt { sub := 0, type := .refresh, email := none, role := none,
         token_id := some 0, exp := 100, iat := 0 }

/-- The token response of a successful call (dummy response on error). -/
def respOf (r : Except AuthErr (TokenResponse × St)) : TokenResponse :=
  match r with
  | .ok (x, _) => x
  | .error _ =>
      { access_token := .malformed "", refresh_token := .malformed "",
        token_type := "", expires_in := 0,
        user := { id := 0, email := "", role := "", is_verified := false } }

/-- Fixture: a state with no registered user at all. -/
def c3StUnknown : St := { db := { users := [], sessions := [] }, nonce := 0 }

/-- Fixture: a stored refresh token whose exp claim is 100. -/
def c1Tok : TokenStr :=
  .jwt { sub := 0, type := .refresh, email := none, role := none,
         token_id := some 0, exp := 100, iat := 0 }

/-- Fixture: the active session row holding c1Tok, expiring at 100. -/
def c1Session : SessionRec :=
  { id := 1, user_id := 0, refresh_token := c1Tok, expires_at := 100, revoked_at := none }

/-- Fixture: one user, one active session holding c1Tok. -/
def c1St : St :=
  { db := { users := [demoUser], sessions := [c1Session] }, nonce := 2 }

/-- The token response refresh_tokens returns from c1St for c1Tok at time 50. -/
def c1Resp : TokenResponse :=
  { access_token := create_access_token 50 0 "a@x.com" "user",
    refresh_token := create_refresh_token 50 0 2,
    token_type := "bearer", expires_in := accessTokenTTL, user := publicOf demoUser }

/-- The state refresh_tokens commits from c1St for c1Tok at time 50: the
presented session revoked, a fresh session appended. -/
def c1St1 : St :=
  { db := { users := [demoUser],
            sessions := [{ c1Session with revoked_at := some 50 },
                         { id := 3, user_id := 0, refresh_token := create_refresh_token 50 0 2,
                           expires_at := 604850, revoked_at := none }] },
    nonce := 4 }

/-- Fixture: a refresh token whose JWT exp claim (604800) is still ahead. -/
def c4Tok : TokenStr :=
  .jwt { sub := 0, type := .refresh, email := none, role := none,
         token_id := some 0, exp := 604800, iat := 0 }

/-- Fixture: an unrevoked session holding c4Tok whose expires_at (10) has
passed. -/
def c4Session : SessionRec :=
  { id := 1, user_id := 0, refresh_token := c4Tok, expires_at := 10, revoked_at := none }

/-- Fixture: one user, one unrevoked but expired session. -/
def c4St : St :=
  { db := { users := [demoUser], sessions := [c4Session] }, nonce := 2 }

/-- Fixture: a refresh token of user 0, verifying at small times. -/
def c10Tok : TokenStr :=
  .jwt { sub := 0, type := .refresh, email := none, role := none,
         token_id := some 0, exp := 1000, iat := 0 }

/-- Fixture: an active session of user 0 (not the one matching c10Tok). -/
def c10SessionA : SessionRec :=
  { id := 1, user_id := 0, refresh_token := .malformed "tA", expires_at := 500, revoked_at := none }

/-- Fixture: an already-revoked session of user 0. -/
def c10SessionB : SessionRec :=
  { id := 2, user_id := 0, refresh_token := .malformed "tB", expires_at := 600, revoked_at := some 3 }

/-- Fixture: an active session of another user (7). -/
def c10SessionC : SessionRec :=
  { id := 3, user_id := 7, refresh_token := .malformed "tC", expires_at := 700, revoked_at := none }

/-- Fixture: sessions of two users, in several lifecycle states. -/
def c10St : St :=
  { db := { users := [demoUser], sessions := [c10SessionA, c10SessionB, c10SessionC] }, nonce := 4 }

/-- Decidable equality on Except, for concrete evaluations. -/
instance {ε α : Type} [DecidableEq ε] [DecidableEq α] : DecidableEq (Except ε α) := fun a b =>
  match a, b with
  | .ok x, .ok y => decidable_of_iff (x = y) (by simp)
  | .error x, .error y => decidable_of_iff (x = y) (by simp)
  | .ok _, .error _ => isFalse (by simp)
  | .error _, .ok _ => isFalse (by simp)

/-- Mapping a function that evolves every element yields a Forall₂. -/
theorem forall₂_map_self {α : Type} {R : α → α → Prop} {f : α → α} :
    ∀ l : List α, (∀ x ∈ l, R x (f x)) → List.Forall₂ R l (l.map f) := by
  intro l
  induction l with
  | nil => intro _; exact List.Forall₂.nil
  | cons a t ih =>
      intro h
      exact List.Forall₂.cons (h a (by simp)) (ih (fun x hx => h x (by simp [hx])))

/-- SessionEvolves is reflexive. -/
theorem sessionEvolves_refl (s : SessionRec) : SessionEvolves s s := by
  refine ⟨rfl, rfl, rfl, rfl, Or.inl rfl⟩

/-- Appending rows after an untouched table preserves it. -/
theorem sessionsPreserved_append (l t : List SessionRec) :
    SessionsPreserved l (l ++ t) := by
  refine ⟨l, t, rfl, ?_⟩
  have h := forall₂_map_self (R := SessionEvolves) (f := id) l
    (fun x _ => sessionEvolves_refl x)
  simpa using h

/-- An untouched table is preserved. -/
theorem sessionsPreserved_refl (l : List SessionRec) : SessionsPreserved l l := by
  have h := sessionsPreserved_append l []
  simpa using h

/-- A map that evolves each row, followed by appended rows, preserves the
table. -/
theorem sessionsPreserved_map_append (l t : List SessionRec) (f : SessionRec → SessionRec)
    (h : ∀ x ∈ l, SessionEvolves x (f x)) :
    SessionsPreserved l (l.map f ++ t) :=
  ⟨l.map f, t, rfl, forall₂_map_self l h⟩

/-- Every failure of verify_access_token is a jose JWTError (never an
HTTPException). -/
theorem verify_access_token_error_jwt (now : Nat) (t : TokenStr) (e : AuthErr)
    (h : verify_access_token now t = .error e) : ∃ m, e = AuthErr.jwtError m := by
  cases t with
  | jwt p =>
      by_cases hc : p.exp < now
      · simp [verify_access_token, decode_token, hc] at h
        exact ⟨_, h.symm⟩
      · by_cases ht : p.type = TokenType.access
        · simp [verify_access_token, decode_token, hc, ht] at h
        · simp [verify_access_token, decode_token, hc, ht] at h
          exact ⟨_, h.symm⟩
  | badSig p =>
      simp [verify_access_token, decode_token] at h
      exact ⟨_, h.symm⟩
  | malformed s =>
      simp [verify_access_token, decode_token] at h
      exact ⟨_, h.symm⟩

/-- The only HTTPException auth_service.get_current_user itself raises is the
401 USER_NOT_FOUND one. -/
theorem service_http_error_is_userNotFound (st : St) (tok : TokenStr) (now : Nat) (m : HTTPError)
    (h : service_get_current_user st tok now = .error (.http m)) :
    AuthErr.http m = userNotFound := by
  cases hv : verify_access_token now tok with
  | error e1 =>
      obtain ⟨mm, hmm⟩ := verify_access_token_error_jwt now tok e1 hv
      simp [service_get_current_user, hv, hmm] at h
  | ok p =>
      cases hu : scalar_one_or_none (st.db.users.filter (fun u => u.id == p.sub)) with
      | error e2 =>
          have : e2 = AuthErr.multipleResults := by
            cases hl : st.db.users.filter (fun u => u.id == p.sub) with
            | nil => rw [hl] at hu; simp [scalar_one_or_none] at hu
            | cons a t =>
                cases t with
                | nil => rw [hl] at hu; simp [scalar_one_or_none] at hu
                | cons b t2 =>
                    rw [hl] at hu; simp [scalar_one_or_none] at hu
                    exact hu.symm
          subst this
          simp [service_get_current_user, hv, hu] at h
      | ok ou =>
          cases ou with
          | none =>
              simp [service_get_current_user, hv, hu, userNotFound] at h
              simp [userNotFound, ← h]
          | some u => simp [service_get_current_user, hv, hu] at h

/-- Characterisation of a successful refresh-token verification: a validly
signed token of type refresh whose exp has not passed. -/
theorem verify_refresh_token_ok_iff (now : Nat) (t : TokenStr) (p : Payload) :
    verify_refresh_token now t = .ok p ↔
      t = .jwt p ∧ p.type = TokenType.refresh ∧ ¬ p.exp < now := by
  constructor
  · intro h
    cases t with
    | jwt q =>
        by_cases hc : q.exp < now
        · simp [verify_refresh_token, decode_token, hc] at h
        · by_cases ht : q.type = TokenType.refresh
          · simp [verify_refresh_token, decode_token, hc, ht] at h
            subst h
            exact ⟨rfl, ht, hc⟩
          · simp [verify_refresh_token, decode_token, hc, ht] at h
    | badSig q => simp [verify_refresh_token, decode_token] at h
    | malformed s => simp [verify_refresh_token, decode_token] at h
  · rintro ⟨rfl, ht, hc⟩
    simp [verify_refresh_token, decode_token, hc, ht]

/-- When scalar_one_or_none returns a row, the query returned exactly that
row. -/
theorem scalar_one_or_none_some {α : Type} (l : List α) (x : α)
    (h : scalar_one_or_none l = .ok (some x)) : l = [x] := by
  cases l with
  | nil => simp [scalar_one_or_none] at h
  | cons a t =>
      cases t with
      | nil =>
          simp [scalar_one_or_none] at h
          rw [h]
      | cons b t2 => simp [scalar_one_or_none] at h

/-- Inversion of a successful refresh_tokens call: the verified payload, the
unique active matching session (unexpired), the unique user row, and the exact
response and committed state. -/
theorem refresh_tokens_ok_inversion
    (st : St) (tok : TokenStr) (now : Nat) (r : TokenResponse) (st1 : St)
    (hok : refresh_tokens st tok now = .ok (r, st1)) :
    ∃ p s user,
      verify_refresh_token now tok = .ok p ∧
      st.db.sessions.filter (sessionMatches tok p.sub) = [s] ∧
      ¬ s.expires_at < now ∧
      st.db.users.filter (fun u => u.id == p.sub) = [user] ∧
      r.access_token = create_access_token now user.id user.email user.role ∧
      r.refresh_token = create_refresh_token now user.id st.nonce ∧
      st1.db.users = st.db.users ∧
      st1.db.sessions =
        (st.db.sessions.map
          (fun x => if sessionMatches tok p.sub x then { x with revoked_at := some now } else x))
        ++ [{ id := st.nonce + 1, user_id := user.id,
              refresh_token := create_refresh_token now user.id st.nonce,
              expires_at := now + refreshTokenTTL, revoked_at := none }] ∧
      st1.nonce = st.nonce + 2 := by
  cases hv : verify_refresh_token now tok with
  | error e => simp [refresh_tokens, hv] at hok
  | ok p =>
      cases hs : scalar_one_or_none (st.db.sessions.filter (sessionMatches tok p.sub)) with
      | error e => simp [refresh_tokens, hv, hs] at hok
      | ok o =>
          cases o with
          | none => simp [refresh_tokens, hv, hs] at hok
          | some s =>
              by_cases he : s.expires_at < now
              · simp [refresh_tokens, hv, hs, he] at hok
              · cases hu : scalar_one_or_none (st.db.users.filter (fun u => u.id == p.sub)) with
                | error e => simp [refresh_tokens, hv, hs, if_neg he, hu] at hok
                | ok ou =>
                    cases ou with
                    | none => simp [refresh_tokens, hv, hs, if_neg he, hu] at hok
                    | some user =>
                        simp only [refresh_tokens, hv, hs, if_neg he, hu,
                          Except.ok.injEq, Prod.mk.injEq] at hok
                        obtain ⟨hr, hst⟩ := hok
                        refine ⟨p, s, user, rfl, scalar_one_or_none_some _ _ hs, he,
                          scalar_one_or_none_some _ _ hu, ?_, ?_, ?_, ?_, ?_⟩
                        · rw [← hr]
                        · rw [← hr]
                        · rw [← hst]
                        · rw [← hst]
                        · rw [← hst]

/-- Freshness argument: a refresh token minted with a token_id drawn at or
above the current uuid4 counter differs from any token stored in a fresh
state, in particular from the presented one. -/
theorem rotated_refresh_token_ne
    (st : St) (tok : TokenStr) (now : Nat) (p : Payload) (s : SessionRec) (uid tid : Nat)
    (hfresh : stFresh st = true)
    (hteq : tok = .jwt p)
    (hsfilter : st.db.sessions.filter (sessionMatches tok p.sub) = [s])
    (htid : st.nonce ≤ tid) :
    create_refresh_token now uid tid ≠ tok := by
  intro hcontra
  have hmem : s ∈ st.db.sessions.filter (sessionMatches tok p.sub) := by
    rw [hsfilter]; simp
  obtain ⟨hmem2, hpred⟩ := List.mem_filter.mp hmem
  have hst : s.refresh_token = tok := by
    have h := hpred
    simp [sessionMatches, Bool.and_eq_true, beq_iff_eq] at h
    tauto
  have hf : tokFresh st.nonce s.refresh_token = true := by
    simp [stFresh, List.all_eq_true] at hfresh
    exact hfresh s hmem2
  rw [hst, hteq] at hf
  rw [hteq] at hcontra
  have hq := TokenStr.jwt.inj hcontra
  have hpid : p.token_id = some tid := by
    rw [← hq]
  simp [tokFresh, tokenIdOf, hpid] at hf
  omega

/-- Claim C1, counterexample: rotate a refresh token whose exp claim is 100 at
time 50, then replay it at time 101: the call fails with the jose
expired-signature JWTError, not with the INVALID_REFRESH_TOKEN replay error,
so not every subsequent call fails with the replay-detected error. -/
theorem c1_counterexample :
    exOk (refresh_tokens c1St c1Tok 50) = true ∧
    refresh_tokens (stAfter c1St (refresh_tokens c1St c1Tok 50)) c1Tok 101
      = .error (.jwtError "Invalid token: Signature has expired.") ∧
    AuthErr.jwtError "Invalid token: Signature has expired." ≠ invalidRefreshToken := by
  decide

/-- Claim C1, amended: once refresh_tokens has accepted a refresh token and
rotated it (from a state whose stored tokens are fresh), every later
refresh_tokens call with that same token fails and issues no tokens, and
whenever the token still passes JWT verification the failure is exactly the
INVALID_REFRESH_TOKEN replay error; after the embedded exp passes, the failure
is the expired-signature JWTError instead.  The token never becomes usable
again. -/
theorem c1_rotated_token_never_usable_again
    (st : St) (tok : TokenStr) (now : Nat) (r : TokenResponse) (st1 : St) (now1 : Nat)
    (hfresh : stFresh st = true)
    (hok : refresh_tokens st tok now = .ok (r, st1)) :
    exOk (refresh_tokens st1 tok now1) = false ∧
    (exOk (verify_refresh_token now1 tok) = true →
      refresh_tokens st1 tok now1 = .error invalidRefreshToken) := by
  obtain ⟨p, s, user, hv, hsf, he, huf, hra, hrr, hu1, hs1, hn1⟩ :=
    refresh_tokens_ok_inversion st tok now r st1 hok
  obtain ⟨hteq, htyp, hexp⟩ := (verify_refresh_token_ok_iff now tok p).mp hv
  have hne : create_refresh_token now user.id st.nonce ≠ tok :=
    rotated_refresh_token_ne st tok now p s user.id st.nonce hfresh hteq hsf (le_refl _)
  have hkey : st1.db.sessions.filter (sessionMatches tok p.sub) = [] := by
    rw [hs1, List.filter_append]
    have h1 : (st.db.sessions.map
        (fun x => if sessionMatches tok p.sub x then { x with revoked_at := some now } else x)).filter
          (sessionMatches tok p.sub) = [] := by
      rw [List.filter_eq_nil_iff]
      intro a ha
      rw [List.mem_map] at ha
      obtain ⟨x, hx, hax⟩ := ha
      by_cases hm : sessionMatches tok p.sub x = true
      · rw [← hax, if_pos hm]
        simp [sessionMatches, beq_iff_eq]
      · rw [← hax, if_neg hm]
        exact hm
    have h2 : List.filter (sessionMatches tok p.sub)
        [{ id := st.nonce + 1, user_id := user.id,
           refresh_token := create_refresh_token now user.id st.nonce,
           expires_at := now + refreshTokenTTL, revoked_at := none }] = [] := by
      simp [sessionMatches, beq_iff_eq, hne]
    rw [h1, h2]
    rfl
  have hpart2 : exOk (verify_refresh_token now1 tok) = true →
      refresh_tokens st1 tok now1 = .error invalidRefreshToken := by
    intro h2
    cases hv2 : verify_refresh_token now1 tok with
    | error e => rw [hv2] at h2; simp [exOk] at h2
    | ok p2 =>
        have hp2 : p2 = p := by
          obtain ⟨hteq2, _, _⟩ := (verify_refresh_token_ok_iff now1 tok p2).mp hv2
          rw [hteq] at hteq2
          exact (TokenStr.jwt.inj hteq2).symm
        simp [refresh_tokens, hv2, hp2, hkey, scalar_one_or_none]
  refine ⟨?_, hpart2⟩
  cases hv2 : verify_refresh_token now1 tok with
  | error e => simp [refresh_tokens, hv2, exOk]
  | ok p2 =>
      have h2 : exOk (verify_refresh_token now1 tok) = true := by rw [hv2]; rfl
      rw [hpart2 h2]; rfl

/-- Claim C1, witness: the amended theorem applied to the concrete rotation of
c1Tok at time 50, replayed at time 70. -/
theorem c1_witness :
    exOk (refresh_tokens c1St1 c1Tok 70) = false ∧
    (exOk (verify_refresh_token 70 c1Tok) = true →
      refresh_tokens c1St1 c1Tok 70 = .error invalidRefreshToken) :=
  c1_rotated_token_never_usable_again c1St c1Tok 50 c1Resp c1St1 70 (by decide) (by decide)

/-- Claim C2: every token issued with type refresh is rejected by
verify_access_token, and every token issued with type access is rejected by
verify_refresh_token, at every verification time. -/
theorem c2_token_type_separation (now0 now uid tid : Nat) (email role : String) :
    exOk (verify_access_token now (create_refresh_token now0 uid tid)) = false ∧
    exOk (verify_refresh_token now (create_access_token now0 uid email role)) = false := by
  constructor
  · simp only [verify_access_token, create_refresh_token, decode_token]
    by_cases h : now0 + refreshTokenTTL < now <;> simp [h, exOk]
  · simp only [verify_refresh_token, create_access_token, decode_token]
    by_cases h : now0 + accessTokenTTL < now <;> simp [h, exOk]

/-- Claim C3: a login with an email absent from the user store and a login
with an existing email (whose stored hash is a real bcrypt hash) but a wrong
password fail with the identical error value: status 401, code
INVALID_CREDENTIALS, message Invalid email or password. -/
theorem c3_login_failure_indistinguishable
    (st1 st2 : St) (e1 e2 pw1 given correct salt : String) (u : UserRec)
    (now1 now2 : Nat)
    (h1 : st1.db.users.filter (fun x => x.email == e1) = [])
    (h2 : st2.db.users.filter (fun x => x.email == e2) = [u])
    (hh : u.password_hash = get_password_hash salt correct)
    (hne : given ≠ correct) :
    login_user st1 e1 pw1 now1 = .error invalidCredentials ∧
    login_user st2 e2 given now2 = .error invalidCredentials := by
  constructor
  · simp [login_user, authenticate_user, h1, scalar_one_or_none]
  · have hcg : (correct == given) = false := by
      simp [beq_iff_eq]
      exact fun h => hne h.symm
    simp [login_user, authenticate_user, h2, scalar_one_or_none, hh,
      verify_password, pwd_context_verify, get_password_hash, hcg]

/-- Claim C3, witness: unknown email against an empty store, and wrong
password against the demo user, both yield invalidCredentials. -/
theorem c3_witness :
    login_user c3StUnknown "b@x.com" "whatever" 0 = .error invalidCredentials ∧
    login_user demoSt "a@x.com" "wrongpass" 0 = .error invalidCredentials :=
  c3_login_failure_indistinguishable c3StUnknown demoSt "b@x.com" "a@x.com" "whatever"
    "wrongpass" "password123" "s1" demoUser 0 0 (by decide) (by decide) rfl (by decide)

/-- Claim C4: when the refresh token verifies and its matching session is
found by the lookup (which filters only on revoked_at being null, so an
expired-but-unrevoked session is found) but expires_at has passed,
refresh_tokens fails with REFRESH_TOKEN_EXPIRED, an error distinct from
INVALID_REFRESH_TOKEN. -/
theorem c4_expired_session_distinct_error
    (st : St) (tok : TokenStr) (now : Nat) (p : Payload) (s : SessionRec)
    (hv : verify_refresh_token now tok = .ok p)
    (hfind : st.db.sessions.filter (sessionMatches tok p.sub) = [s])
    (hexp : s.expires_at < now) :
    refresh_tokens st tok now = .error refreshTokenExpired ∧
    refreshTokenExpired ≠ invalidRefreshToken := by
  constructor
  · simp [refresh_tokens, hv, hfind, scalar_one_or_none, hexp]
  · decide

/-- Claim C4, witness: the unrevoked session of c4St expired at 10; a refresh
at time 20 reports REFRESH_TOKEN_EXPIRED. -/
theorem c4_witness :
    refresh_tokens c4St c4Tok 20 = .error refreshTokenExpired ∧
    refreshTokenExpired ≠ invalidRefreshToken :=
  c4_expired_session_distinct_error c4St c4Tok 20
    ⟨0, .refresh, none, none, some 0, 604800, 0⟩ c4Session (by decide) (by decide) (by decide)

/-- Claim C5, counterexample: verify_password on a malformed stored hash
propagates the passlib UnknownHashError instead of returning false. -/
theorem c5_counterexample :
    verify_password "password123" (HashStr.malformed "notahash")
        = .error (.passlibError "hash could not be identified") ∧
    verify_password "password123" (HashStr.malformed "notahash") ≠ .ok false := by
  decide

/-- Claim C5, amended: for every input whose stored hash string is malformed,
verify_password raises (propagating passlib UnknownHashError); it does not
return false. -/
theorem c5_malformed_hash_raises (plain s : String) :
    verify_password plain (HashStr.malformed s)
        = .error (.passlibError "hash could not be identified") := rfl

/-- Claim C6, counterexample: logging in at time 0 and refreshing at the same
second succeeds and returns a pair whose refresh token differs from the
presented one but whose access token string is identical to the previous one
(same claims, same integer iat and exp), so the pair does not differ in both
components. -/
theorem c6_counterexample :
    login_user demoSt "a@x.com" "password123" 0 = .ok (demoResp0, demoSt1) ∧
    exOk (refresh_tokens demoSt1 demoResp0.refresh_token 0) = true ∧
    (respOf (refresh_tokens demoSt1 demoResp0.refresh_token 0)).access_token
      = demoResp0.access_token ∧
    (respOf (refresh_tokens demoSt1 demoResp0.refresh_token 0)).refresh_token
      ≠ demoResp0.refresh_token := by
  decide

/-- Claim C6, amended: a successful refresh_tokens call (from a state whose
stored tokens are fresh) returns a refresh token different from the presented
one, always; the returned access token differs from any access token issued
at a different second, and can coincide only with an access token minted in
the same clock second. -/
theorem c6_rotation_new_refresh_new_access_when_second_differs
    (st : St) (tok : TokenStr) (now : Nat) (r : TokenResponse) (st1 : St)
    (t0 uid0 : Nat) (email0 role0 : String)
    (hfresh : stFresh st = true)
    (hok : refresh_tokens st tok now = .ok (r, st1)) :
    r.refresh_token ≠ tok ∧
    (t0 ≠ now → r.access_token ≠ create_access_token t0 uid0 email0 role0) := by
  obtain ⟨p, s, user, hv, hsf, he, huf, hra, hrr, hu1, hs1, hn1⟩ :=
    refresh_tokens_ok_inversion st tok now r st1 hok
  obtain ⟨hteq, htyp, hexp⟩ := (verify_refresh_token_ok_iff now tok p).mp hv
  constructor
  · rw [hrr]
    exact rotated_refresh_token_ne st tok now p s user.id st.nonce hfresh hteq hsf (le_refl _)
  · intro hT hcontra
    rw [hra] at hcontra
    have hq := TokenStr.jwt.inj hcontra
    have hiat : now = t0 := congrArg Payload.iat hq
    exact hT hiat.symm

/-- Claim C6, witness: the amended theorem applied to the rotation of c1Tok at
time 50, against an access token issued at time 51. -/
theorem c6_witness :
    c1Resp.refresh_token ≠ c1Tok ∧
    (51 ≠ 50 → c1Resp.access_token ≠ create_access_token 51 0 "a@x.com" "user") :=
  c6_rotation_new_refresh_new_access_when_second_differs c1St c1Tok 50 c1Resp c1St1
    51 0 "a@x.com" "user" (by decide) (by decide)

/-- Claim C7: the logout route reports success for every input token and every
state — valid, already revoked, expired, unknown or malformed — and a second
logout with the same token reports success again. -/
theorem c7_logout_always_succeeds (st : St) (tok : TokenStr) (now now1 : Nat) :
    (logout_route st tok now).1 = "Successfully logged out" ∧
    (logout_route (logout_route st tok now).2 tok now1).1 = "Successfully logged out" :=
  ⟨rfl, rfl⟩

/-- Claim C8: across register, login, refresh, logout and current-user
resolution, every pre-existing session row survives (no physical delete), its
id, user_id, refresh_token and expires_at never change, and the only mutation
is setting revoked_at from null to a timestamp; new rows are only appended. -/
theorem c8_sessions_only_appended_or_revoked :
    (∀ st email password salt,
       SessionsPreserved st.db.sessions (stAfter st (register_user st email password salt)).db.sessions) ∧
    (∀ st email password now,
       SessionsPreserved st.db.sessions (stAfter st (login_user st email password now)).db.sessions) ∧
    (∀ st tok now,
       SessionsPreserved st.db.sessions (stAfter st (refresh_tokens st tok now)).db.sessions) ∧
    (∀ st tok now,
       SessionsPreserved st.db.sessions (logout_user st tok now).db.sessions) ∧
    (∀ st tok now,
       SessionsPreserved st.db.sessions (stAfter st (service_get_current_user st tok now)).db.sessions) := by
  refine ⟨?_, ?_, ?_, ?_, ?_⟩
  · intro st email password salt
    cases hs : scalar_one_or_none (st.db.users.filter (fun u => u.email == email)) with
    | error e => simp [register_user, hs, stAfter]; exact sessionsPreserved_refl _
    | ok o =>
        cases o with
        | none => simp [register_user, hs, stAfter]; exact sessionsPreserved_refl _
        | some u => simp [register_user, hs, stAfter]; exact sessionsPreserved_refl _
  · intro st email password now
    cases ha : authenticate_user st.db email password with
    | error e => simp [login_user, ha, stAfter]; exact sessionsPreserved_refl _
    | ok user => simp [login_user, ha, stAfter]; exact sessionsPreserved_append _ _
  · intro st tok now
    cases hv : verify_refresh_token now tok with
    | error e => simp [refresh_tokens, hv, stAfter]; exact sessionsPreserved_refl _
    | ok p =>
        cases hs : scalar_one_or_none (st.db.sessions.filter (sessionMatches tok p.sub)) with
        | error e => simp [refresh_tokens, hv, hs, stAfter]; exact sessionsPreserved_refl _
        | ok o =>
            cases o with
            | none => simp [refresh_tokens, hv, hs, stAfter]; exact sessionsPreserved_refl _
            | some s =>
                by_cases he : s.expires_at < now
                · simp [refresh_tokens, hv, hs, he, stAfter]; exact sessionsPreserved_refl _
                · cases hu : scalar_one_or_none (st.db.users.filter (fun u => u.id == p.sub)) with
                  | error e =>
                      simp [refresh_tokens, hv, hs, he, hu, stAfter]
                      exact sessionsPreserved_refl _
                  | ok ou =>
                      cases ou with
                      | none =>
                          simp [refresh_tokens, hv, hs, he, hu, stAfter]
                          exact sessionsPreserved_refl _
                      | some user =>
                          simp only [refresh_tokens, hv, hs, hu, stAfter, if_neg he]
                          apply sessionsPreserved_map_append
                          intro x hx
                          by_cases hm : sessionMatches tok p.sub x = true
                          · have hnone : x.revoked_at = none := by
                              have := hm
                              simp [sessionMatches, Bool.and_eq_true, beq_iff_eq] at this
                              exact this.2
                            simp only [hm, if_true]
                            exact ⟨rfl, rfl, rfl, rfl, Or.inr ⟨hnone, now, rfl⟩⟩
                          · simp only [if_neg hm]
                            exact sessionEvolves_refl x
  · intro st tok now
    cases hv : verify_refresh_token now tok with
    | error e => simp [logout_user, logoutBody, hv]; exact sessionsPreserved_refl _
    | ok p =>
        simp only [logout_user, logoutBody, hv]
        have h := sessionsPreserved_map_append st.db.sessions []
          (fun s => if s.user_id == p.sub && s.revoked_at == none
                    then { s with revoked_at := some now } else s) ?_
        · simpa using h
        · intro x hx
          by_cases hc : (x.user_id == p.sub && x.revoked_at == none) = true
          · have hnone : x.revoked_at = none := by
              have := (Bool.and_eq_true _ _).mp hc
              simpa [beq_iff_eq] using this.2
            simp only [hc, if_true]
            exact ⟨rfl, rfl, rfl, rfl, Or.inr ⟨hnone, now, rfl⟩⟩
          · simp only [if_neg hc]
            exact sessionEvolves_refl x
  · intro st tok now
    cases hv : verify_access_token now tok with
    | error e => simp [service_get_current_user, hv, stAfter]; exact sessionsPreserved_refl _
    | ok p =>
        cases hu : scalar_one_or_none (st.db.users.filter (fun u => u.id == p.sub)) with
        | error e =>
            simp [service_get_current_user, hv, hu, stAfter]
            exact sessionsPreserved_refl _
        | ok ou =>
            cases ou with
            | none =>
                simp [service_get_current_user, hv, hu, stAfter]
                exact sessionsPreserved_refl _
            | some u =>
                simp [service_get_current_user, hv, hu, stAfter]
                exact sessionsPreserved_refl _

/-- Claim C9, counterexample: an expired access token and a wrong-type token
both fail at the authentication boundary with status 401, but the
client-visible messages differ, revealing which condition occurred. -/
theorem c9_counterexample :
    (clientErrOf (deps_get_current_user demoSt (some tok9a) 10)).status_code = 401 ∧
    (clientErrOf (deps_get_current_user demoSt (some tok9b) 10)).status_code = 401 ∧
    (clientErrOf (deps_get_current_user demoSt (some tok9a) 10)).message
      ≠ (clientErrOf (deps_get_current_user demoSt (some tok9b) 10)).message := by
  decide

/-- Claim C9, amended: every failure of the current-user service surfaces at
the boundary as a 401, but, except for the USER_NOT_FOUND HTTPException which
is re-raised as is, the client-visible message is the internal exception text
prefixed with Authentication failed, so distinct token-failure conditions
produce distinct client-visible messages rather than one identical message. -/
theorem c9_boundary_wraps_internal_reason
    (st : St) (tok : TokenStr) (now : Nat) (e : AuthErr)
    (herr : service_get_current_user st tok now = .error e) :
    exOk (deps_get_current_user st (some tok) now) = false ∧
    (clientErrOf (deps_get_current_user st (some tok) now)).status_code = 401 ∧
    (e = userNotFound ∨
      (clientErrOf (deps_get_current_user st (some tok) now)).message
        = "Authentication failed: " ++ errToStr e) := by
  cases e with
  | http m =>
      have hm := service_http_error_is_userNotFound st tok now m herr
      have hm2 : m = { status_code := 401, code := "USER_NOT_FOUND", message := "User not found" } := by
        simpa [userNotFound] using hm
      subst hm2
      simp [deps_get_current_user, herr, clientErrOf, exOk, userNotFound]
  | jwtError m =>
      simp [deps_get_current_user, herr, clientErrOf, exOk, errToStr]
  | multipleResults =>
      simp [deps_get_current_user, herr, clientErrOf, exOk, errToStr]
  | passlibError m =>
      simp [deps_get_current_user, herr, clientErrOf, exOk, errToStr]

/-- Claim C9, witness: the amended theorem applied to an expired access token
at time 10. -/
theorem c9_witness :
    exOk (deps_get_current_user demoSt (some tok9a) 10) = false ∧
    (clientErrOf (deps_get_current_user demoSt (some tok9a) 10)).status_code = 401 ∧
    (AuthErr.jwtError "Invalid token: Signature has expired." = userNotFound ∨
      (clientErrOf (deps_get_current_user demoSt (some tok9a) 10)).message
        = "Authentication failed: "
            ++ errToStr (.jwtError "Invalid token: Signature has expired.")) :=
  c9_boundary_wraps_internal_reason demoSt tok9a 10
    (.jwtError "Invalid token: Signature has expired.") (by decide)

/-- Claim C10: when the presented refresh token verifies, logout_user sets
revoked_at to now on every active session of the embedded user — not only the
session matching the presented token — and leaves every other row (other
users, already revoked) and the users table unchanged. -/
theorem c10_logout_revokes_all_sessions_of_token_user
    (st : St) (tok : TokenStr) (now : Nat) (p : Payload)
    (hv : verify_refresh_token now tok = .ok p) :
    List.Forall₂ (LogoutEvolves p.sub now) st.db.sessions (logout_user st tok now).db.sessions ∧
    (logout_user st tok now).db.users = st.db.users := by
  constructor
  · simp only [logout_user, logoutBody, hv]
    apply forall₂_map_self
    intro x _
    by_cases hc : (x.user_id == p.sub && x.revoked_at == none) = true
    · have h12 := (Bool.and_eq_true _ _).mp hc
      have h1 : x.user_id = p.sub := by simpa [beq_iff_eq] using h12.1
      have h2 : x.revoked_at = none := by simpa [beq_iff_eq] using h12.2
      constructor
      · intro _; simp [hc]
      · intro hcon; exact absurd ⟨h1, h2⟩ hcon
    · constructor
      · intro hcon
        exact absurd (by simp [beq_iff_eq, hcon.1, hcon.2]) hc
      · intro _; simp [hc]
  · simp [logout_user, logoutBody, hv]

/-- Claim C10, witness: logging out user 0 at time 5 revokes the active
sessions of user 0 and leaves the revoked one and the session of user 7
unchanged. -/
theorem c10_witness :
    List.Forall₂ (LogoutEvolves 0 5) c10St.db.sessions (logout_user c10St c10Tok 5).db.sessions ∧
    (logout_user c10St c10Tok 5).db.users = c10St.db.users :=
  c10_logout_revokes_all_sessions_of_token_user c10St c10Tok 5
    ⟨0, .refresh, none, none, some 0, 1000, 0⟩ (by decide)
